import Mathlib

/-!
# Verification development for the daily_magic_bot repository

A shallow embedding of the news-aggregation, curation, summarization,
article-fetch, date-parsing and mail-retry logic of the repository
(`news_fetcher.py`, `gemini_processor.py`, `email_sender.py`), together
with theorems settling the specification's claims about that logic.

External effects (HTTP fetches, the generative-text service, the SMTP
server, the system clock) are modelled as explicit parameters: a fetcher
becomes the list of records it returned, the generation call becomes an
`Except Unit _` value (exception / parsed payload), the mail server
becomes a list of per-attempt outcomes, and `datetime.now()` becomes a
date argument.  Python strings are Lean `String`s (sequences of code
points), Python string comparison is embedded explicitly below.
-/

/-! ## Python string primitives -/

/-- Whether `needle` occurs at the head of the character list. -/
def charsStarts : List Char → List Char → Bool
  | _, [] => true
  | [], _ :: _ => false
  | a :: as, b :: bs => a == b && charsStarts as bs

/-- Whether `needle` occurs anywhere in the character list (Python `in`). -/
def charsHas : List Char → List Char → Bool
  | [], needle => needle.isEmpty
  | a :: as, needle => charsStarts (a :: as) needle || charsHas as needle

/-- Python `needle in hay` on strings. -/
def pyIn (needle hay : String) : Bool :=
  charsHas hay.data needle.data

/-- Lexicographic `<` on code points, Python's `str.__lt__`. -/
def charsLt : List Char → List Char → Bool
  | [], [] => false
  | [], _ :: _ => true
  | _ :: _, [] => false
  | a :: as, b :: bs => if a < b then true else if b < a then false else charsLt as bs

/-- Python `a >= b` on strings: not (a < b). -/
def pyStrGe (a b : String) : Bool :=
  ! charsLt a.data b.data

/-! ## Data model: news candidates

`NewsCandidate` is the dict `{'title', 'url', 'source', 'date'}` built by
every fetcher in `news_fetcher.py` (date already normalized to a
`YYYY-MM-DD` string by `_parse_date`). -/

structure Candidate where
  title : String
  url : String
  source : String
  date : String
deriving DecidableEq, Repr

/-! ## `MultiSourceNewsFetcher._filter_recent_news` and `fetch_all_news_titles`

`_filter_recent_news` (news_fetcher.py lines 326–336) keeps the records
whose `date` string compares `>=` against `cutoff`, the string
`(datetime.now() - timedelta(days=days)).strftime('%Y-%m-%d')`; the
cutoff string is taken as a parameter here (the clock is external).

`fetch_all_news_titles` (lines 38–70) extends an accumulator with the
output of the five fetchers in a fixed order and recency-filters the
concatenation; the five network fetchers are taken as parameters. -/

def filter_recent_news (newsList : List Candidate) (cutoff : String) : List Candidate :=
  newsList.filter fun news => pyStrGe news.date cutoff

def fetch_all_news_titles (natureNews natureResearch sciencedaily sciencedailyTop
    sciencedailyBrain : List Candidate) (cutoff : String) : List Candidate :=
  filter_recent_news
    (natureNews ++ natureResearch ++ sciencedaily ++ sciencedailyTop ++ sciencedailyBrain)
    cutoff

/-- Two distinct recent candidates sharing one url, contributed by two
different fetchers. -/
def natureDupA : Candidate :=
  ⟨"A result", "https://www.nature.com/articles/x", "Nature News", "2026-10-12"⟩

/-- Second candidate with the same url as `natureDupA`. -/
def natureDupB : Candidate :=
  ⟨"B result", "https://www.nature.com/articles/x", "Nature Research", "2026-10-12"⟩

/-- C1 counterexample: two fetchers each contribute a (recent) candidate
with the same url, and the aggregated feed keeps both entries — not
exactly one as the claim states. -/
theorem fetch_all_news_titles_shared_url_counterexample :
    ((fetch_all_news_titles [natureDupA] [natureDupB] [] [] [] "2026-10-10").filter
        (fun c => c.url == "https://www.nature.com/articles/x")).length = 2 ∧
      ¬ ((fetch_all_news_titles [natureDupA] [natureDupB] [] [] [] "2026-10-10").filter
        (fun c => c.url == "https://www.nature.com/articles/x")).length = 1 := by
  constructor
  · decide
  · decide

/-- C1 (amended): `fetch_all_news_titles` performs no de-duplication at
all: the aggregated feed is exactly the recency-filtered concatenation of
the five fetcher outputs, preserving every candidate's multiplicity — a
recent candidate occurs in the output exactly as often as in the combined
fetcher outputs, and a stale one never does. -/
theorem fetch_all_news_titles_no_dedup :
    ∀ (nn nr sd st sb : List Candidate) (cutoff : String) (c : Candidate),
      (fetch_all_news_titles nn nr sd st sb cutoff).count c =
        if pyStrGe c.date cutoff then (nn ++ nr ++ sd ++ st ++ sb).count c else 0 := by
  intro nn nr sd st sb cutoff c
  unfold fetch_all_news_titles filter_recent_news
  generalize nn ++ nr ++ sd ++ st ++ sb = l
  induction l with
  | nil => simp
  | cons a l ih =>
    rcases eq_or_ne a c with hc | hc
    · subst hc
      by_cases h : pyStrGe a.date cutoff <;>
        simp [List.filter_cons, List.count_cons, h, ih]
    · by_cases h : pyStrGe a.date cutoff <;>
        simp [List.filter_cons, List.count_cons, h, hc, ih]

/-- C5: the recency filter keeps exactly the entries whose normalized date
string is `>=` the cutoff (now minus the window): a candidate is in the
output iff it is in the input and not older than the cutoff; and on the
spec's scenario — three candidates dated today, today and three days ago
with a two-day window — exactly the two today-dated entries remain. -/
theorem filter_recent_news_keeps_exactly_window :
    (∀ (l : List Candidate) (cutoff : String) (c : Candidate),
      c ∈ filter_recent_news l cutoff ↔ c ∈ l ∧ pyStrGe c.date cutoff = true) ∧
    filter_recent_news
        [⟨"t1", "u1", "s1", "2026-10-12"⟩, ⟨"t2", "u2", "s2", "2026-10-12"⟩,
          ⟨"t3", "u3", "s3", "2026-10-09"⟩] "2026-10-10" =
      [⟨"t1", "u1", "s1", "2026-10-12"⟩, ⟨"t2", "u2", "s2", "2026-10-12"⟩] := by
  constructor
  · intro l cutoff c
    simp [filter_recent_news, List.mem_filter]
  · decide

/-! ## Curation: `generate_master_content` and index resolution

The generation service's parsed JSON reply may hold arbitrary values in
`selected_news_indices`; `PyVal` is the value universe of the embedding.
Python's `bool` is a subclass of `int`, so `isinstance(idx, int)` accepts
booleans and arithmetic uses `True = 1`, `False = 0`. -/

inductive PyVal where
  | vint (n : Int)
  | vbool (b : Bool)
  | vstr (s : String)
  | vnone
deriving DecidableEq, Repr

/-- Python `isinstance(v, int)`: true for ints and bools. -/
def isinstance_int : PyVal → Bool
  | .vint _ => true
  | .vbool _ => true
  | _ => false

/-- The numeric value Python arithmetic sees (only consulted on values
where `isinstance_int` holds). -/
def pyToInt : PyVal → Int
  | .vint n => n
  | .vbool b => if b then 1 else 0
  | _ => 0

/-- The structured document `generate_master_content` returns (parsed
JSON on success, or the literal fallback dict built in the handler of
gemini_processor.py lines 220–227). -/
structure MasterContent where
  greeting : String
  advice_beijing : String
  advice_jinan : String
  selected_news_indices : List PyVal
deriving DecidableEq, Repr

/-- Python `range(a, b)` as a list of naturals. -/
def pyRange (a b : Nat) : List Nat :=
  List.range' a (b - a)

/-- `GeminiProcessor.generate_master_content` (gemini_processor.py lines
145–227): the prompt construction and the network call are external; the
call's outcome is a parameter — `.ok` the parsed structured reply, `.error`
any exception (transport failure or `json.loads` failure).  On error the
handler returns the fixed fallback document with
`selected_news_indices = list(range(1, min(16, len(news_list) + 1)))`. -/
def generate_master_content (characterName : String) (newsList : List Candidate)
    (outcome : Except Unit MasterContent) : MasterContent :=
  match outcome with
  | .ok mc => mc
  | .error _ =>
    { greeting := characterName ++ "祝您早安！今天的天气真不错！"
      advice_beijing := "请注意天气变化。"
      advice_jinan := "请注意天气变化。"
      selected_news_indices :=
        List.map (fun n => PyVal.vint (Int.ofNat n)) (pyRange 1 (min 16 (newsList.length + 1))) }

/-- C3: when the generation call raises or its reply cannot be parsed,
`generate_master_content` still returns a document with a non-empty
greeting, non-empty advice for both cities, and
`selected_news_indices` equal to the positions `1 .. min 15 (length of
the feed)`; in particular the selection has length `min 15 len`, which is
at most 15 for every feed length. -/
theorem generate_master_content_fallback_total :
    ∀ (characterName : String) (newsList : List Candidate),
      (generate_master_content characterName newsList (.error ())).greeting ≠ "" ∧
      (generate_master_content characterName newsList (.error ())).advice_beijing ≠ "" ∧
      (generate_master_content characterName newsList (.error ())).advice_jinan ≠ "" ∧
      (generate_master_content characterName newsList (.error ())).selected_news_indices =
        List.map (fun n => PyVal.vint (Int.ofNat n)) (List.range' 1 (min 15 newsList.length)) ∧
      (generate_master_content characterName newsList (.error ())).selected_news_indices.length =
        min 15 newsList.length ∧
      (generate_master_content characterName newsList (.error ())).selected_news_indices.length ≤ 15 := by
  intro characterName newsList
  refine ⟨?_, by simp [generate_master_content], by simp [generate_master_content], ?_, ?_, ?_⟩
  · intro h
    have hdata := congrArg String.data h
    simp [generate_master_content, String.data_append] at hdata
  · have harg : min 16 (newsList.length + 1) - 1 = min 15 newsList.length := by omega
    simp [generate_master_content, pyRange, harg]
  · simp only [generate_master_content, pyRange]
    rw [List.length_map, List.length_range']
    omega
  · simp only [generate_master_content, pyRange]
    rw [List.length_map, List.length_range']
    omega

/-- The index-resolution loop of `process_daily_report`
(gemini_processor.py lines 352–354): each selected value passes through
`isinstance(idx, int) and 0 <= idx - 1 < len(news_list)` and, when it
does, `news_list[idx - 1]` is taken; the per-article network fetch that
follows each lookup is outside this fragment. -/
def resolve_selected_indices (selected : List PyVal) (newsList : List Candidate) :
    List Candidate :=
  selected.filterMap fun idx =>
    if isinstance_int idx ∧ 0 ≤ pyToInt idx - 1 ∧ pyToInt idx - 1 < (newsList.length : Int)
    then newsList.get? (pyToInt idx - 1).toNat
    else none

/-- C4's statement in the spec's own words: a value that is not an
integer, or whose value lies outside `[1, len(news_list)]`, is skipped;
a valid integer index `i` yields exactly entry `i - 1` of the feed. -/
def resolve_selected_indices_spec (selected : List PyVal) (newsList : List Candidate) :
    List Candidate :=
  selected.filterMap fun idx =>
    if isinstance_int idx ∧ 1 ≤ pyToInt idx ∧ pyToInt idx ≤ (newsList.length : Int)
    then newsList.get? (pyToInt idx - 1).toNat
    else none

/-- C4: index resolution is total (a plain function of the selected list
and the feed — no crash), agrees with the spec's description — non-integer
or out-of-[1, len] values are skipped and a valid integer `i` resolves to
feed entry `i - 1` — and on the spec's scenario `[1, 99, 2]` against a
two-entry feed it yields exactly the first and second entries. -/
theorem resolve_selected_indices_safe :
    (∀ (selected : List PyVal) (newsList : List Candidate),
      resolve_selected_indices selected newsList =
        resolve_selected_indices_spec selected newsList) ∧
    ∀ (a b : Candidate),
      resolve_selected_indices [.vint 1, .vint 99, .vint 2] [a, b] = [a, b] := by
  constructor
  · intro selected newsList
    unfold resolve_selected_indices resolve_selected_indices_spec
    refine List.filterMap_congr ?_
    intro idx _
    have hiff : (isinstance_int idx ∧ 0 ≤ pyToInt idx - 1 ∧
        pyToInt idx - 1 < (newsList.length : Int)) ↔
        (isinstance_int idx ∧ 1 ≤ pyToInt idx ∧ pyToInt idx ≤ (newsList.length : Int)) := by
      constructor
      · rintro ⟨h1, h2, h3⟩; exact ⟨h1, by omega, by omega⟩
      · rintro ⟨h1, h2, h3⟩; exact ⟨h1, by omega, by omega⟩
    by_cases h : isinstance_int idx ∧ 0 ≤ pyToInt idx - 1 ∧
        pyToInt idx - 1 < (newsList.length : Int)
    · rw [if_pos h, if_pos (hiff.mp h)]
    · rw [if_neg h, if_neg (fun hs => h (hiff.mpr hs))]
  · intro a b
    simp [resolve_selected_indices, isinstance_int, pyToInt, List.filterMap]

/-- C10: Python booleans pass the `isinstance(idx, int)` check, so a
`True` in `selected_news_indices` behaves as index 1 and resolves to the
first entry of any non-empty feed, while `False` fails the lower bound
`0 <= idx - 1` and is skipped on every feed; both are handled without
error (resolution stays a total function). -/
theorem resolve_selected_indices_bool_behavior :
    isinstance_int (.vbool true) = true ∧
    isinstance_int (.vbool false) = true ∧
    (∀ (c : Candidate) (rest : List Candidate),
      resolve_selected_indices [.vbool true] (c :: rest) = [c]) ∧
    ∀ (newsList : List Candidate),
      resolve_selected_indices [.vbool false] newsList = [] := by
  refine ⟨rfl, rfl, ?_, ?_⟩
  · intro c rest
    simp [resolve_selected_indices, isinstance_int, pyToInt]
  · intro newsList
    simp [resolve_selected_indices, isinstance_int, pyToInt]

/-! ## Batch summarization: `process_news_batch` and metadata re-attachment

`GeminiProcessor.process_news_batch` (gemini_processor.py lines 231–304)
sends all articles in one generation request and re-associates the parsed
reply list positionally.  An input article is the dict built in
`process_daily_report` (title, content, url, plus carried date/source);
a reply item is a dict read with `res.get('title_cn', ...)` and
`res.get('summary', ...)`, so its fields are optional.  The request and
`json.loads` are external: `.ok` is a parsed reply list, `.error` any
exception (transport failure, unparseable or non-list reply). -/

structure ArticleIn where
  title : String
  content : String
  url : String
  date : String
  source : String
deriving DecidableEq, Repr

structure GenItem where
  title_cn : Option String
  summary : Option String
deriving DecidableEq, Repr

/-- The enriched item (dict with keys title_en, title_cn, summary, url;
date and source are absent until `process_daily_report` attaches them —
absent is modelled as `""`). -/
structure Enriched where
  title_en : String
  title_cn : String
  summary : String
  url : String
  date : String
  source : String
deriving DecidableEq, Repr

/-- The merge loop of `process_news_batch` (lines 284–292):
`for i, res in enumerate(results): if i < len(articles): append(...)` —
positional pairing truncated at the shorter list. -/
def merge_batch_results : List GenItem → List ArticleIn → List Enriched
  | [], _ => []
  | _ :: _, [] => []
  | res :: results, art :: articles =>
    { title_en := art.title
      title_cn := res.title_cn.getD art.title
      summary := res.summary.getD "暂无总结"
      url := art.url
      date := ""
      source := "" } :: merge_batch_results results articles

def process_news_batch (articles : List ArticleIn) (outcome : Except Unit (List GenItem)) :
    List Enriched :=
  match outcome with
  | .ok results => merge_batch_results results articles
  | .error _ =>
    articles.map fun art =>
      { title_en := art.title
        title_cn := art.title
        summary := "AI处理失败，请查看原文"
        url := art.url
        date := ""
        source := "" }

/-- The re-attachment loop of `process_daily_report` (gemini_processor.py
lines 382–385): `for i, item in enumerate(processed): if i <
len(articles_to_process): item['date'] = ...; item['source'] = ...`. -/
def attach_news_meta : List Enriched → List ArticleIn → List Enriched
  | [], _ => []
  | item :: items, [] => item :: items
  | item :: items, art :: articles =>
    { item with date := art.date, source := art.source } :: attach_news_meta items articles

/-- Steps 4 of `process_daily_report`: batch summarization followed by
date/source re-attachment. -/
def batch_with_meta (articles : List ArticleIn) (outcome : Except Unit (List GenItem)) :
    List Enriched :=
  attach_news_meta (process_news_batch articles outcome) articles

theorem merge_batch_results_length (rs : List GenItem) (as : List ArticleIn) :
    (merge_batch_results rs as).length = min rs.length as.length := by
  induction rs generalizing as with
  | nil => simp [merge_batch_results]
  | cons r rs ih =>
    cases as with
    | nil => simp [merge_batch_results]
    | cons a as => simp [merge_batch_results, ih]; omega

theorem merge_batch_results_url (rs : List GenItem) (as : List ArticleIn) :
    (merge_batch_results rs as).map (fun e => e.url) =
      (as.map (fun a => a.url)).take (merge_batch_results rs as).length := by
  induction rs generalizing as with
  | nil => simp [merge_batch_results]
  | cons r rs ih =>
    cases as with
    | nil => simp [merge_batch_results]
    | cons a as => simp [merge_batch_results, ih]

theorem attach_news_meta_spec (ps : List Enriched) (as : List ArticleIn)
    (h : ps.length ≤ as.length) :
    (attach_news_meta ps as).length = ps.length ∧
    (attach_news_meta ps as).map (fun e => e.url) = ps.map (fun e => e.url) ∧
    (attach_news_meta ps as).map (fun e => e.date) =
      (as.map (fun a => a.date)).take ps.length ∧
    (attach_news_meta ps as).map (fun e => e.source) =
      (as.map (fun a => a.source)).take ps.length := by
  induction ps generalizing as with
  | nil => simp [attach_news_meta]
  | cons p ps ih =>
    cases as with
    | nil => simp at h
    | cons a as =>
      simp only [List.length_cons, Nat.succ_le_succ_iff] at h
      obtain ⟨h1, h2, h3, h4⟩ := ih as h
      simp [attach_news_meta, h1, h2, h3, h4]

/-- C2: for a batch of N input articles, `process_news_batch` returns at
most N enriched items whose position-i url is input article i's url, and
after `process_daily_report` re-attaches metadata, position i of the
output carries the url, date and source of input article i — whatever
the generation service returned for the localized titles and
summaries. -/
theorem process_news_batch_alignment :
    ∀ (articles : List ArticleIn) (outcome : Except Unit (List GenItem)),
      (process_news_batch articles outcome).length ≤ articles.length ∧
      (process_news_batch articles outcome).map (fun e => e.url) =
        (articles.map (fun a => a.url)).take (process_news_batch articles outcome).length ∧
      (batch_with_meta articles outcome).length ≤ articles.length ∧
      (batch_with_meta articles outcome).map (fun e => e.url) =
        (articles.map (fun a => a.url)).take (batch_with_meta articles outcome).length ∧
      (batch_with_meta articles outcome).map (fun e => e.date) =
        (articles.map (fun a => a.date)).take (batch_with_meta articles outcome).length ∧
      (batch_with_meta articles outcome).map (fun e => e.source) =
        (articles.map (fun a => a.source)).take (batch_with_meta articles outcome).length := by
  intro articles outcome
  have hlen : (process_news_batch articles outcome).length ≤ articles.length := by
    cases outcome with
    | error e => simp [process_news_batch]
    | ok results => simp [process_news_batch, merge_batch_results_length]
  have hurl : (process_news_batch articles outcome).map (fun e => e.url) =
      (articles.map (fun a => a.url)).take (process_news_batch articles outcome).length := by
    cases outcome with
    | error e =>
      simp [process_news_batch, List.map_map, Function.comp]
      rw [List.take_of_length_le (by simp)]
      rfl
    | ok results =>
      simpa [process_news_batch] using merge_batch_results_url results articles
  obtain ⟨h1, h2, h3, h4⟩ := attach_news_meta_spec (process_news_batch articles outcome)
    articles hlen
  unfold batch_with_meta
  refine ⟨hlen, hurl, by rw [h1]; exact hlen, ?_, by rw [h3, h1], by rw [h4, h1]⟩
  rw [h2, h1, hurl]

/-- C6: when the batch generation call raises or its reply cannot be
parsed, `process_news_batch` returns exactly one item per input, reusing
input i's title as the localized title, substituting the fixed
placeholder summary, and keeping input i's url; the fallback is a plain
value, so the summarizer never raises. -/
theorem process_news_batch_failure_passthrough :
    ∀ (articles : List ArticleIn),
      (process_news_batch articles (.error ())).length = articles.length ∧
      (process_news_batch articles (.error ())).map (fun e => e.title_cn) =
        articles.map (fun a => a.title) ∧
      (process_news_batch articles (.error ())).map (fun e => e.url) =
        articles.map (fun a => a.url) ∧
      (process_news_batch articles (.error ())).map (fun e => e.summary) =
        List.replicate articles.length "AI处理失败，请查看原文" := by
  intro articles
  induction articles with
  | nil => simp [process_news_batch]
  | cons a as ih =>
    obtain ⟨h1, h2, h3, h4⟩ := ih
    simp_all [process_news_batch, List.replicate_succ]

/-! ## Article detail fetch: `fetch_article_content`

`MultiSourceNewsFetcher.fetch_article_content` (news_fetcher.py lines
338–366) fetches a url and dispatches on the url's domain to one of three
site parsers (lines 368–436).  The HTTP fetch and the HTML parse are
external: their outcome is a parameter — `.error` any raised exception,
`.ok` the parsed document, abstracted as what the site parser's selectors
would extract from it (optional headline, optional abstract element,
optional body element's text after script/style removal). -/

structure Soup where
  titleElem : Option String
  abstractElem : Option String
  bodyElem : Option String
deriving DecidableEq, Repr

structure ArticleDetail where
  title : String
  abstract : String
  full_text : String
  url : String
deriving DecidableEq, Repr

/-- Python `s[:n]` on strings. -/
def pyTake (n : Nat) (s : String) : String :=
  ⟨s.data.take n⟩

/-- `_parse_nature_article` (lines 368–390): title defaults to "未知",
abstract to "", body falls back to the abstract; the body text is
truncated to 3000 characters. -/
def parse_nature_article (soup : Soup) (url : String) : ArticleDetail :=
  let title := soup.titleElem.getD "未知"
  let abstract := soup.abstractElem.getD ""
  let full_text := soup.bodyElem.getD abstract
  { title := title, abstract := abstract, full_text := pyTake 3000 full_text, url := url }

/-- `_parse_sciencedaily_article` (lines 392–413): same shape with
ScienceDaily's selectors. -/
def parse_sciencedaily_article (soup : Soup) (url : String) : ArticleDetail :=
  let title := soup.titleElem.getD "未知"
  let abstract := soup.abstractElem.getD ""
  let full_text := soup.bodyElem.getD abstract
  { title := title, abstract := abstract, full_text := pyTake 3000 full_text, url := url }

/-- `_parse_science_article` (lines 415–436): same shape with
Science's selectors. -/
def parse_science_article (soup : Soup) (url : String) : ArticleDetail :=
  let title := soup.titleElem.getD "未知"
  let abstract := soup.abstractElem.getD ""
  let full_text := soup.bodyElem.getD abstract
  { title := title, abstract := abstract, full_text := pyTake 3000 full_text, url := url }

def fetch_article_content (url : String) (outcome : Except Unit Soup) : ArticleDetail :=
  match outcome with
  | .error _ => { title := "未知", abstract := "", full_text := "", url := url }
  | .ok soup =>
    if pyIn "nature.com" url then parse_nature_article soup url
    else if pyIn "sciencedaily.com" url then parse_sciencedaily_article soup url
    else if pyIn "science.org" url then parse_science_article soup url
    else { title := "未知", abstract := "", full_text := "", url := url }

/-- C8: `fetch_article_content` is a total function of the url and the
fetch outcome (exceptions are caught, an article record always comes
back); on every path the returned `full_text` holds at most 3000
characters; when the fetch raised, or when the url matches none of the
three recognized domains, `full_text` is empty. -/
theorem fetch_article_content_bounded :
    ∀ (url : String) (outcome : Except Unit Soup),
      (fetch_article_content url outcome).full_text.data.length ≤ 3000 ∧
      (∀ e, outcome = .error e → (fetch_article_content url outcome).full_text = "") ∧
      (pyIn "nature.com" url = false → pyIn "sciencedaily.com" url = false →
        pyIn "science.org" url = false →
        (fetch_article_content url outcome).full_text = "") := by
  intro url outcome
  refine ⟨?_, ?_, ?_⟩
  · cases outcome with
    | error e => simp [fetch_article_content]
    | ok soup =>
      simp only [fetch_article_content]
      split
      · simp [parse_nature_article, pyTake]
      · split
        · simp [parse_sciencedaily_article, pyTake]
        · split
          · simp [parse_science_article, pyTake]
          · simp
  · rintro e rfl
    simp [fetch_article_content]
  · intro h1 h2 h3
    cases outcome with
    | error e => simp [fetch_article_content]
    | ok soup => simp [fetch_article_content, h1, h2, h3]

/-- Witness for C8's conditional parts at a concrete input: an
unrecognized-domain fetch that raised returns an empty body. -/
theorem fetch_article_content_bounded_witness :
    (fetch_article_content "https://example.com/a" (.error ())).full_text = "" :=
  (fetch_article_content_bounded "https://example.com/a" (.error ())).2.1 () rfl

/-! ## Date parsing: `_parse_date`

`MultiSourceNewsFetcher._parse_date` (news_fetcher.py lines 296–324)
normalizes a scraped date string to `YYYY-MM-DD`: an empty string yields
today, otherwise `datetime.strptime` is tried against six formats in
order (truncating the input to its first 19 characters when it contains
a `'T'`), the first success is reformatted with `strftime('%Y-%m-%d')`,
and any failure falls back to today's date.

`strptime` is modelled after CPython's `_strptime`: each directive is the
character class of `TimeRE` (`%Y` exactly four digits; `%m` `1[0-2]|0[1-9]|[1-9]`;
`%d` `3[01]|[12]\d|0[1-9]|[1-9]`; `%H` `2[0-3]|[0-1]\d|\d`; `%M`/`%S`
`[0-5]\d|\d`; `%f` one to six digits; a blank in the format one or more
whitespace characters; `%b`/`%B` a month name, case-insensitively — the
whole pattern is compiled with IGNORECASE, so literal letters also match
either case), the entire string must be consumed, and the parsed fields
must form a valid `datetime` (year 1–9999, month 1–12, day within the
month) or the attempt fails. -/

structure Date where
  y : Nat
  m : Nat
  d : Nat
deriving DecidableEq, Repr

def isLeapYear (y : Nat) : Bool :=
  y % 4 == 0 && (y % 100 != 0 || y % 400 == 0)

def daysInMonth (y m : Nat) : Nat :=
  if m == 2 then (if isLeapYear y then 29 else 28)
  else if m == 4 || m == 6 || m == 9 || m == 11 then 30
  else 31

/-- `datetime(year, month, day)` construction: raises (here `none`) unless
the fields are in range. -/
def mkDate (y m d : Nat) : Option Date :=
  if 1 ≤ y && y ≤ 9999 && 1 ≤ m && m ≤ 12 && 1 ≤ d && d ≤ daysInMonth y m then
    some ⟨y, m, d⟩
  else none

def digitVal (c : Char) : Nat :=
  c.toNat - 48

/-- `%Y`: exactly four digits. -/
def pYear : List Char → Option (Nat × List Char)
  | c1 :: c2 :: c3 :: c4 :: rest =>
    if c1.isDigit && c2.isDigit && c3.isDigit && c4.isDigit then
      some (((digitVal c1 * 10 + digitVal c2) * 10 + digitVal c3) * 10 + digitVal c4, rest)
    else none
  | _ => none

/-- `%m`: `1[0-2]|0[1-9]|[1-9]`, alternatives in order. -/
def pMonth : List Char → Option (Nat × List Char)
  | '1' :: c :: rest =>
    if c == '0' || c == '1' || c == '2' then some (10 + digitVal c, rest)
    else some (1, c :: rest)
  | '0' :: c :: rest =>
    if '1' ≤ c && c ≤ '9' then some (digitVal c, rest) else none
  | c :: rest =>
    if '1' ≤ c && c ≤ '9' then some (digitVal c, rest) else none
  | [] => none

/-- `%d`: `3[01]|[12]\d|0[1-9]|[1-9]`, alternatives in order. -/
def pDay : List Char → Option (Nat × List Char)
  | '3' :: c :: rest =>
    if c == '0' || c == '1' then some (30 + digitVal c, rest)
    else some (3, c :: rest)
  | c1 :: c2 :: rest =>
    if (c1 == '1' || c1 == '2') && c2.isDigit then
      some (digitVal c1 * 10 + digitVal c2, rest)
    else if c1 == '0' && ('1' ≤ c2 && c2 ≤ '9') then some (digitVal c2, rest)
    else if '1' ≤ c1 && c1 ≤ '9' then some (digitVal c1, c2 :: rest)
    else none
  | [c] => if '1' ≤ c && c ≤ '9' then some (digitVal c, []) else none
  | [] => none

/-- `%H`: `2[0-3]|[0-1]\d|\d`, alternatives in order. -/
def pHour : List Char → Option (Nat × List Char)
  | '2' :: c :: rest =>
    if '0' ≤ c && c ≤ '3' then some (20 + digitVal c, rest)
    else some (2, c :: rest)
  | c1 :: c2 :: rest =>
    if (c1 == '0' || c1 == '1') && c2.isDigit then
      some (digitVal c1 * 10 + digitVal c2, rest)
    else if c1.isDigit then some (digitVal c1, c2 :: rest)
    else none
  | [c] => if c.isDigit then some (digitVal c, []) else none
  | [] => none

/-- `%M` and `%S`: `[0-5]\d|\d`, alternatives in order. -/
def pMinSec : List Char → Option (Nat × List Char)
  | c1 :: c2 :: rest =>
    if ('0' ≤ c1 && c1 ≤ '5') && c2.isDigit then
      some (digitVal c1 * 10 + digitVal c2, rest)
    else if c1.isDigit then some (digitVal c1, c2 :: rest)
    else none
  | [c] => if c.isDigit then some (digitVal c, []) else none
  | [] => none

/-- A literal character of the format. -/
def pLit (c : Char) : List Char → Option (List Char)
  | x :: rest => if x == c then some rest else none
  | [] => none

/-- A literal letter of the format (IGNORECASE: either case matches). -/
def pLitCI (c : Char) : List Char → Option (List Char)
  | x :: rest => if x.toLower == c then some rest else none
  | [] => none

/-- Up to `n` further digits of a `%f` field. -/
def dropDigitsUpTo : Nat → List Char → List Char
  | 0, rest => rest
  | _ + 1, [] => []
  | n + 1, c :: rest => if c.isDigit then dropDigitsUpTo n rest else c :: rest

/-- `%f`: one to six digits (value unused by a date-only reformat). -/
def pFrac : List Char → Option (List Char)
  | c :: rest => if c.isDigit then some (dropDigitsUpTo 5 rest) else none
  | [] => none

/-- A blank in the format: one or more whitespace characters. -/
def pSpaces : List Char → Option (List Char)
  | c :: rest => if c.isWhitespace then some (rest.dropWhile Char.isWhitespace) else none
  | [] => none

/-- Consume `name` case-insensitively from the head of the input. -/
def matchCI : List Char → List Char → Option (List Char)
  | cs, [] => some cs
  | [], _ :: _ => none
  | c :: cs, n :: ns => if c.toLower == n then matchCI cs ns else none

/-- Try each name in turn, returning its 1-based position. -/
def pNames (cs : List Char) : List (List Char) → Nat → Option (Nat × List Char)
  | [], _ => none
  | n :: ns, i =>
    match matchCI cs n with
    | some rest => some (i, rest)
    | none => pNames cs ns (i + 1)

def monthAbbrs : List (List Char) :=
  [String.data "jan", String.data "feb", String.data "mar", String.data "apr",
    String.data "may", String.data "jun", String.data "jul", String.data "aug",
    String.data "sep", String.data "oct", String.data "nov", String.data "dec"]

def monthFulls : List (List Char) :=
  [String.data "january", String.data "february", String.data "march",
    String.data "april", String.data "may", String.data "june", String.data "july",
    String.data "august", String.data "september", String.data "october",
    String.data "november", String.data "december"]

/-- Format `'%Y-%m-%d'`. -/
def fmtYmd (cs : List Char) : Option Date := do
  let (y, cs) ← pYear cs
  let cs ← pLit '-' cs
  let (m, cs) ← pMonth cs
  let cs ← pLit '-' cs
  let (d, cs) ← pDay cs
  if cs.isEmpty then mkDate y m d else none

/-- Format `'%Y-%m-%dT%H:%M:%S'`. -/
def fmtYmdThms (cs : List Char) : Option Date := do
  let (y, cs) ← pYear cs
  let cs ← pLit '-' cs
  let (m, cs) ← pMonth cs
  let cs ← pLit '-' cs
  let (d, cs) ← pDay cs
  let cs ← pLitCI 't' cs
  let (_, cs) ← pHour cs
  let cs ← pLit ':' cs
  let (_, cs) ← pMinSec cs
  let cs ← pLit ':' cs
  let (_, cs) ← pMinSec cs
  if cs.isEmpty then mkDate y m d else none

/-- Format `'%Y-%m-%dT%H:%M:%SZ'`. -/
def fmtYmdThmsZ (cs : List Char) : Option Date := do
  let (y, cs) ← pYear cs
  let cs ← pLit '-' cs
  let (m, cs) ← pMonth cs
  let cs ← pLit '-' cs
  let (d, cs) ← pDay cs
  let cs ← pLitCI 't' cs
  let (_, cs) ← pHour cs
  let cs ← pLit ':' cs
  let (_, cs) ← pMinSec cs
  let cs ← pLit ':' cs
  let (_, cs) ← pMinSec cs
  let cs ← pLitCI 'z' cs
  if cs.isEmpty then mkDate y m d else none

/-- Format `'%Y-%m-%dT%H:%M:%S.%fZ'`. -/
def fmtYmdThmsFracZ (cs : List Char) : Option Date := do
  let (y, cs) ← pYear cs
  let cs ← pLit '-' cs
  let (m, cs) ← pMonth cs
  let cs ← pLit '-' cs
  let (d, cs) ← pDay cs
  let cs ← pLitCI 't' cs
  let (_, cs) ← pHour cs
  let cs ← pLit ':' cs
  let (_, cs) ← pMinSec cs
  let cs ← pLit ':' cs
  let (_, cs) ← pMinSec cs
  let cs ← pLit '.' cs
  let cs ← pFrac cs
  let cs ← pLitCI 'z' cs
  if cs.isEmpty then mkDate y m d else none

/-- Format `'%d %b %Y'`. -/
def fmtDbY (cs : List Char) : Option Date := do
  let (d, cs) ← pDay cs
  let cs ← pSpaces cs
  let (m, cs) ← pNames cs monthAbbrs 1
  let cs ← pSpaces cs
  let (y, cs) ← pYear cs
  if cs.isEmpty then mkDate y m d else none

/-- Format `'%B %d, %Y'`. -/
def fmtBdY (cs : List Char) : Option Date := do
  let (m, cs) ← pNames cs monthFulls 1
  let cs ← pSpaces cs
  let (d, cs) ← pDay cs
  let cs ← pLit ',' cs
  let cs ← pSpaces cs
  let (y, cs) ← pYear cs
  if cs.isEmpty then mkDate y m d else none

/-- The format loop of `_parse_date`: first success wins. -/
def tryFormats (cs : List Char) : Option Date :=
  fmtYmd cs <|> fmtYmdThms cs <|> fmtYmdThmsZ cs <|> fmtYmdThmsFracZ cs <|>
    fmtDbY cs <|> fmtBdY cs

/-- `date_str[:19] if 'T' in date_str else date_str`. -/
def pyDateInput (s : String) : String :=
  if pyIn "T" s then ⟨s.data.take 19⟩ else s

/-- The decimal digit character for `n < 10`. -/
def digitChar (n : Nat) : Char :=
  if n == 0 then '0' else if n == 1 then '1' else if n == 2 then '2'
  else if n == 3 then '3' else if n == 4 then '4' else if n == 5 then '5'
  else if n == 6 then '6' else if n == 7 then '7' else if n == 8 then '8' else '9'

/-- `strftime('%Y-%m-%d')`: zero-padded four-digit year, two-digit month
and day (datetime fields always lie in those ranges). -/
def formatDate (t : Date) : String :=
  ⟨[digitChar (t.y / 1000 % 10), digitChar (t.y / 100 % 10), digitChar (t.y / 10 % 10),
    digitChar (t.y % 10), '-', digitChar (t.m / 10 % 10), digitChar (t.m % 10), '-',
    digitChar (t.d / 10 % 10), digitChar (t.d % 10)]⟩

def parse_date (dateStr : String) (today : Date) : String :=
  if dateStr = "" then formatDate today
  else
    match tryFormats (pyDateInput dateStr).data with
    | some d => formatDate d
    | none => formatDate today

/-- Whether a string has the exact shape `DDDD-DD-DD` (digits and two
dashes), i.e. a calendar date with no time-of-day. -/
def isDateShape (s : String) : Bool :=
  match s.data with
  | [a, b, c, d, e, f, g, h, i, j] =>
    a.isDigit && b.isDigit && c.isDigit && d.isDigit && e == '-' &&
      f.isDigit && g.isDigit && h == '-' && i.isDigit && j.isDigit
  | _ => false

theorem digitChar_isDigit (n : Nat) : (digitChar n).isDigit = true := by
  unfold digitChar
  repeat' split
  all_goals decide

theorem formatDate_shape (t : Date) : isDateShape (formatDate t) = true := by
  simp [isDateShape, formatDate, digitChar_isDigit]

/-- C9: `_parse_date` is a total function of the input string (every
exception path of the Python code is a caught branch of the embedding):
for every input it returns a string of the exact shape `YYYY-MM-DD` —
a calendar date, no time-of-day — and whenever the input is empty or
matches none of the six known formats it returns today's date, so a
record with an unparseable date keeps a (today-dated) value instead of
failing.  Concretely, a timestamped input is reduced to its calendar
date and garbage input yields today. -/
theorem parse_date_normalizes :
    (∀ (s : String) (t : Date),
      isDateShape (parse_date s t) = true ∧
      ((s = "" ∨ tryFormats (pyDateInput s).data = none) → parse_date s t = formatDate t)) ∧
    parse_date "2025-01-07T10:30:00Z" ⟨2026, 10, 12⟩ = "2025-01-07" ∧
    parse_date "03 DEC 2025" ⟨2026, 10, 12⟩ = "2025-12-03" ∧
    parse_date "not a date" ⟨2026, 10, 12⟩ = "2026-10-12" := by
  refine ⟨?_, by decide, by decide, by decide⟩
  intro s t
  constructor
  · unfold parse_date
    split
    · exact formatDate_shape t
    · cases h : tryFormats (pyDateInput s).data with
      | none => simp [h, formatDate_shape]
      | some d => simp [h, formatDate_shape]
  · rintro (rfl | h)
    · simp [parse_date]
    · unfold parse_date
      split
      · rfl
      · simp [h]

/-! ## Mail delivery retry: `EmailSender.send_email`

`send_email` (email_sender.py lines 412–482) loops `for attempt in
range(max_retries)`.  Each attempt builds the message, sleeps
`2 * attempt` seconds when `attempt > 0`, and tries to deliver.  The SMTP
server is external: `outcomes.getD i` is what attempt `i` does — delivery
succeeds, raises an `smtplib.SMTPException` with a message, or raises
some other exception (a trace shorter than the attempt count reads as
other exceptions).  On `SMTPException` the handler retries when the
message contains `'450'` and this is not the last attempt, returns
`False` on the last attempt, and otherwise falls through the `if`/`elif`
— which also continues the loop, i.e. retries.  On any other exception it
returns `False` on the last attempt and otherwise continues.  The result
records the returned boolean, how many attempts ran, and the sleeps
performed. -/

inductive AttemptRes where
  | success
  | smtpErr (msg : String)
  | otherErr
deriving DecidableEq, Repr

structure SendResult where
  ok : Bool
  attempts : Nat
  sleeps : List Nat
deriving DecidableEq, Repr

def sendLoop (outcomes : List AttemptRes) (maxRetries : Nat) : List Nat → SendResult
  | [] => { ok := false, attempts := maxRetries, sleeps := [] }
  | attempt :: rest =>
    let sl : List Nat := if 0 < attempt then [2 * attempt] else []
    match outcomes.getD attempt .otherErr with
    | .success => { ok := true, attempts := attempt + 1, sleeps := sl }
    | .smtpErr msg =>
      if pyIn "450" msg ∧ attempt < maxRetries - 1 then
        let r := sendLoop outcomes maxRetries rest
        { ok := r.ok, attempts := r.attempts, sleeps := sl ++ r.sleeps }
      else if attempt = maxRetries - 1 then
        { ok := false, attempts := attempt + 1, sleeps := sl }
      else
        let r := sendLoop outcomes maxRetries rest
        { ok := r.ok, attempts := r.attempts, sleeps := sl ++ r.sleeps }
    | .otherErr =>
      if attempt = maxRetries - 1 then
        { ok := false, attempts := attempt + 1, sleeps := sl }
      else
        let r := sendLoop outcomes maxRetries rest
        { ok := r.ok, attempts := r.attempts, sleeps := sl ++ r.sleeps }

def send_email (outcomes : List AttemptRes) (maxRetries : Nat := 3) : SendResult :=
  sendLoop outcomes maxRetries (List.range maxRetries)

theorem sendLoop_attempts_le (o : List AttemptRes) (m : Nat) :
    ∀ (k a : Nat), a + k = m → (sendLoop o m (List.range' a k)).attempts ≤ m := by
  intro k
  induction k with
  | zero => intro a ha; simp [List.range', sendLoop]
  | succ k ih =>
    intro a ha
    have hrest := ih (a + 1) (by omega)
    simp only [List.range', sendLoop]
    cases h : o.getD a .otherErr with
    | success => simp [h]; omega
    | smtpErr msg =>
      simp only [h]
      split
      · simpa using hrest
      · split
        · simp; omega
        · simpa using hrest
    | otherErr =>
      simp only [h]
      split
      · simp; omega
      · simpa using hrest

theorem sendLoop_all_fail (o : List AttemptRes) (m : Nat)
    (hfail : ∀ i, i < m → o.getD i .otherErr ≠ .success) :
    ∀ (k a : Nat), a + k = m → (sendLoop o m (List.range' a k)).ok = false := by
  intro k
  induction k with
  | zero => intro a ha; simp [List.range', sendLoop]
  | succ k ih =>
    intro a ha
    have hrest := ih (a + 1) (by omega)
    simp only [List.range', sendLoop]
    cases h : o.getD a .otherErr with
    | success => exact absurd h (hfail a (by omega))
    | smtpErr msg =>
      simp only [h]
      split
      · simpa using hrest
      · split
        · simp
        · simpa using hrest
    | otherErr =>
      simp only [h]
      split
      · simp
      · simpa using hrest

theorem sendLoop_cons_success (o : List AttemptRes) (m a : Nat) (rest : List Nat)
    (h : o.getD a .otherErr = .success) :
    sendLoop o m (a :: rest) =
      { ok := true, attempts := a + 1, sleeps := if 0 < a then [2 * a] else [] } := by
  simp only [sendLoop, h]

theorem sendLoop_cons_fail (o : List AttemptRes) (m a : Nat) (rest : List Nat)
    (hfail : o.getD a .otherErr ≠ .success) (hnotlast : ¬ a = m - 1) :
    sendLoop o m (a :: rest) =
      { ok := (sendLoop o m rest).ok, attempts := (sendLoop o m rest).attempts,
        sleeps := (if 0 < a then [2 * a] else []) ++ (sendLoop o m rest).sleeps } := by
  cases h : o.getD a .otherErr with
  | success => exact absurd h hfail
  | smtpErr msg =>
    simp only [sendLoop, h]
    by_cases hc : pyIn "450" msg ∧ a < m - 1
    · rw [if_pos hc]
    · rw [if_neg hc, if_neg hnotlast]
  | otherErr =>
    simp only [sendLoop, h]
    rw [if_neg hnotlast]

theorem sendLoop_first_success (o : List AttemptRes) (m j : Nat)
    (hj : j < m) (hbefore : ∀ i, i < j → o.getD i .otherErr ≠ .success)
    (hsucc : o.getD j .otherErr = .success) :
    ∀ (k a : Nat), a + k = m → a ≤ j →
      sendLoop o m (List.range' a k) =
        { ok := true, attempts := j + 1,
          sleeps := (List.range' (max a 1) (j + 1 - max a 1)).map fun x => 2 * x } := by
  intro k
  induction k with
  | zero => intro a ha hale; omega
  | succ k ih =>
    intro a ha hale
    rcases eq_or_lt_of_le hale with rfl | halt
    · rw [show List.range' a (k + 1) = a :: List.range' (a + 1) k from rfl,
        sendLoop_cons_success o m a _ hsucc]
      rcases Nat.eq_zero_or_pos a with rfl | hpos
      · simp
      · have h1 : max a 1 = a := by omega
        have h2 : a + 1 - max a 1 = 1 := by omega
        simp [h1, h2, List.range', hpos]
    · have hrest := ih (a + 1) (by omega) (by omega)
      rw [show List.range' a (k + 1) = a :: List.range' (a + 1) k from rfl,
        sendLoop_cons_fail o m a _ (hbefore a halt) (by omega), hrest]
      rcases Nat.eq_zero_or_pos a with rfl | hpos
      · simp
      · have h1 : max a 1 = a := by omega
        have h2 : max (a + 1) 1 = a + 1 := by omega
        have h3 : j + 1 - a = (j - a) + 1 := by omega
        have h4 : j + 1 - (a + 1) = j - a := by omega
        simp [h1, h2, h3, h4, List.range', hpos]

/-- C7 (amended): `send_email` makes at most `max_retries` attempts
(default 3) and returns `False` once every attempt in the budget has
failed; an SMTP error whose message contains `'450'` occurring before the
last attempt triggers a retry with linearly increasing backoff (sleep
`2 * attempt` before retry attempt number `attempt`) — and so does every
other error before the last attempt, since the non-450 branches of the
handlers also fall through to the next loop iteration: the error
taxonomy affects only logging, not whether a retry happens.  If the
first success comes at attempt `j` (0-based) after `j` failures of any
kind, the call returns `True` after `j + 1` attempts with sleeps
`2, 4, ..., 2*j`. -/
theorem send_email_bounded_retry :
    ∀ (outcomes : List AttemptRes) (maxRetries : Nat),
      (send_email outcomes maxRetries).attempts ≤ maxRetries ∧
      ((∀ i, i < maxRetries → outcomes.getD i .otherErr ≠ .success) →
        (send_email outcomes maxRetries).ok = false) ∧
      (∀ j, j < maxRetries → (∀ i, i < j → outcomes.getD i .otherErr ≠ .success) →
        outcomes.getD j .otherErr = .success →
        (send_email outcomes maxRetries).ok = true ∧
        (send_email outcomes maxRetries).attempts = j + 1 ∧
        (send_email outcomes maxRetries).sleeps = (List.range' 1 j).map fun x => 2 * x) := by
  intro o m
  refine ⟨?_, ?_, ?_⟩
  · unfold send_email
    rw [List.range_eq_range']
    exact sendLoop_attempts_le o m m 0 (by omega)
  · intro hfail
    unfold send_email
    rw [List.range_eq_range']
    exact sendLoop_all_fail o m hfail m 0 (by omega)
  · intro j hj hbefore hsucc
    unfold send_email
    rw [List.range_eq_range',
      sendLoop_first_success o m j hj hbefore hsucc m 0 (by omega) (by omega)]
    refine ⟨rfl, rfl, ?_⟩
    simp

/-- C7 counterexample: a first attempt fails with an SMTP error whose
message does not contain `'450'` ("535 Authentication failed"), yet
`send_email` runs a second attempt — which succeeds, so the call returns
True after two attempts.  The claim's "other transport errors are
treated as terminal rather than retried within the budget" is false on
the code. -/
theorem send_email_non450_retried_counterexample :
    pyIn "450" "535 Authentication failed" = false ∧
    (send_email [.smtpErr "535 Authentication failed", .success] 3).ok = true ∧
    (send_email [.smtpErr "535 Authentication failed", .success] 3).attempts = 2 := by
  decide

/-- Witness instantiating `send_email_bounded_retry` at a concrete
trace: one non-450 failure followed by a success inside a budget of 3. -/
theorem send_email_bounded_retry_witness :
    (send_email [.smtpErr "535 Authentication failed", .success] 3).ok = true ∧
    (send_email [.smtpErr "535 Authentication failed", .success] 3).attempts = 2 ∧
    (send_email [.smtpErr "535 Authentication failed", .success] 3).sleeps =
      (List.range' 1 1).map fun x => 2 * x := by
  have h := (send_email_bounded_retry [.smtpErr "535 Authentication failed", .success] 3).2.2 1
    (by decide)
    (fun i hi => by
      have hz : i = 0 := by omega
      subst hz
      decide)
    (by decide)
  exact ⟨h.1, h.2.1, h.2.2⟩
